import Mathlib

/-!
Verification of the MikroTik credential-manager core (mikrotik_api.py and
mikrotik_manager.py) against its natural-language specification.

The development shallowly embeds the relevant program fragments:
bytes are naturals below 256, protocol words are lists of characters,
the stateful socket loops become recursive functions over the list of
incoming words, and the device interactions of the manager are modelled by an
explicit environment recording which commands are issued and what each
returns.
-/

/- ===================== Wire codec =====================
`encode_length` embeds `MikroTikAPI._send_length` (mikrotik_api.py lines
75-89): the list of bytes written to the socket for a message length.
`decode_length` embeds `MikroTikAPI._read_length` (lines 97-110): it
consumes bytes from the front of the stream and returns the decoded
length together with the unconsumed remainder. -/

def encode_length (n : Nat) : List Nat :=
  if n < 0x80 then
    [n]
  else if n < 0x4000 then
    let l := n ||| 0x8000
    [(l >>> 8) &&& 0xFF, l &&& 0xFF]
  else if n < 0x200000 then
    let l := n ||| 0xC00000
    [(l >>> 16) &&& 0xFF, (l >>> 8) &&& 0xFF, l &&& 0xFF]
  else if n < 0x10000000 then
    let l := n ||| 0xE0000000
    [(l >>> 24) &&& 0xFF, (l >>> 16) &&& 0xFF, (l >>> 8) &&& 0xFF, l &&& 0xFF]
  else
    [0xF0, (n >>> 24) &&& 0xFF, (n >>> 16) &&& 0xFF, (n >>> 8) &&& 0xFF, n &&& 0xFF]

def decode_length : List Nat → Option (Nat × List Nat)
  | [] => none
  | b0 :: rest =>
    if b0 < 0x80 then
      some (b0, rest)
    else if b0 < 0xC0 then
      match rest with
      | b1 :: r => some (((b0 &&& 0x7F) <<< 8) + b1, r)
      | [] => none
    else if b0 < 0xE0 then
      match rest with
      | b1 :: b2 :: r => some (((b0 &&& 0x1F) <<< 16) + (b1 <<< 8) + b2, r)
      | _ => none
    else if b0 < 0xF0 then
      match rest with
      | b1 :: b2 :: b3 :: r =>
        some (((b0 &&& 0x0F) <<< 24) + (b1 <<< 16) + (b2 <<< 8) + b3, r)
      | _ => none
    else
      match rest with
      | b1 :: b2 :: b3 :: b4 :: r =>
        some ((b1 <<< 24) + (b2 <<< 16) + (b3 <<< 8) + b4, r)
      | _ => none

/- Arithmetic bridges between the bitwise operations used by the source
and the div/mod arithmetic that omega understands. -/

theorem and255 (x : Nat) : x &&& 255 = x % 256 := by
  have h := Nat.and_pow_two_sub_one_eq_mod x 8
  norm_num at h
  exact h

theorem and127 (x : Nat) : x &&& 127 = x % 128 := by
  have h := Nat.and_pow_two_sub_one_eq_mod x 7
  norm_num at h
  exact h

theorem and31 (x : Nat) : x &&& 31 = x % 32 := by
  have h := Nat.and_pow_two_sub_one_eq_mod x 5
  norm_num at h
  exact h

theorem and15 (x : Nat) : x &&& 15 = x % 16 := by
  have h := Nat.and_pow_two_sub_one_eq_mod x 4
  norm_num at h
  exact h

theorem lor_0x8000 {n : Nat} (h : n < 0x4000) : n ||| 0x8000 = n + 0x8000 := by
  have h15 : n < 2 ^ 15 := lt_of_lt_of_le h (by norm_num)
  have h2 := Nat.mul_add_lt_is_or h15 1
  norm_num at h2
  rw [Nat.or_comm, ← h2]
  omega

theorem lor_0xC00000 {n : Nat} (h : n < 0x200000) : n ||| 0xC00000 = n + 0xC00000 := by
  have h22 : n < 2 ^ 22 := lt_of_lt_of_le h (by norm_num)
  have h2 := Nat.mul_add_lt_is_or h22 3
  norm_num at h2
  rw [Nat.or_comm, ← h2]
  omega

theorem lor_0xE0000000 {n : Nat} (h : n < 0x10000000) :
    n ||| 0xE0000000 = n + 0xE0000000 := by
  have h29 : n < 2 ^ 29 := lt_of_lt_of_le h (by norm_num)
  have h2 := Nat.mul_add_lt_is_or h29 7
  norm_num at h2
  rw [Nat.or_comm, ← h2]
  omega

/- Closed forms of `decode_length` on streams of each length class. -/

theorem decode_two (x y : Nat) (h1 : 0x80 ≤ x) (h2 : x < 0xC0) :
    decode_length [x, y] = some (((x &&& 0x7F) <<< 8) + y, []) := by
  simp only [decode_length]
  rw [if_neg (by omega), if_pos h2]

theorem decode_three (x y z : Nat) (h1 : 0xC0 ≤ x) (h2 : x < 0xE0) :
    decode_length [x, y, z] = some (((x &&& 0x1F) <<< 16) + (y <<< 8) + z, []) := by
  simp only [decode_length]
  rw [if_neg (by omega), if_neg (by omega), if_pos h2]

theorem decode_four (x y z w : Nat) (h1 : 0xE0 ≤ x) (h2 : x < 0xF0) :
    decode_length [x, y, z, w] =
      some (((x &&& 0x0F) <<< 24) + (y <<< 16) + (z <<< 8) + w, []) := by
  simp only [decode_length]
  rw [if_neg (by omega), if_neg (by omega), if_neg (by omega), if_pos h2]

theorem decode_five (x y z w v : Nat) (h1 : 0xF0 ≤ x) :
    decode_length [x, y, z, w, v] =
      some ((y <<< 24) + (z <<< 16) + (w <<< 8) + v, []) := by
  simp only [decode_length]
  rw [if_neg (by omega), if_neg (by omega), if_neg (by omega), if_neg (by omega)]

theorem shl8 (x : Nat) : x <<< 8 = x * 256 := by
  rw [Nat.shiftLeft_eq]

theorem shl16 (x : Nat) : x <<< 16 = x * 65536 := by
  rw [Nat.shiftLeft_eq]

theorem shl24 (x : Nat) : x <<< 24 = x * 16777216 := by
  rw [Nat.shiftLeft_eq]

/- Closed forms of `encode_length` on each value class, with the bitwise
operations of the source resolved into div/mod arithmetic. -/

theorem encode_one {n : Nat} (h : n < 0x80) : encode_length n = [n] := by
  simp [encode_length, h]

theorem encode_two {n : Nat} (h1 : ¬ n < 0x80) (h2 : n < 0x4000) :
    encode_length n = [(n + 32768) / 256 % 256, (n + 32768) % 256] := by
  simp only [encode_length, if_neg h1, if_pos h2]
  rw [lor_0x8000 h2, Nat.shiftRight_eq_div_pow, and255, and255]

theorem encode_three {n : Nat} (h1 : ¬ n < 0x4000) (h2 : n < 0x200000) :
    encode_length n =
      [(n + 12582912) / 65536 % 256, (n + 12582912) / 256 % 256, (n + 12582912) % 256] := by
  simp only [encode_length, if_neg (show ¬ n < 0x80 by omega), if_neg h1, if_pos h2]
  rw [lor_0xC00000 h2, Nat.shiftRight_eq_div_pow, Nat.shiftRight_eq_div_pow,
    and255, and255, and255]

theorem encode_four {n : Nat} (h1 : ¬ n < 0x200000) (h2 : n < 0x10000000) :
    encode_length n =
      [(n + 3758096384) / 16777216 % 256, (n + 3758096384) / 65536 % 256,
       (n + 3758096384) / 256 % 256, (n + 3758096384) % 256] := by
  simp only [encode_length, if_neg (show ¬ n < 0x80 by omega),
    if_neg (show ¬ n < 0x4000 by omega), if_neg h1, if_pos h2]
  rw [lor_0xE0000000 h2, Nat.shiftRight_eq_div_pow, Nat.shiftRight_eq_div_pow,
    Nat.shiftRight_eq_div_pow, and255, and255, and255, and255]

theorem encode_five {n : Nat} (h : ¬ n < 0x10000000) :
    encode_length n =
      [240, n / 16777216 % 256, n / 65536 % 256, n / 256 % 256, n % 256] := by
  simp only [encode_length, if_neg (show ¬ n < 0x80 by omega),
    if_neg (show ¬ n < 0x4000 by omega), if_neg (show ¬ n < 0x200000 by omega), if_neg h]
  rw [Nat.shiftRight_eq_div_pow, Nat.shiftRight_eq_div_pow, Nat.shiftRight_eq_div_pow,
    and255, and255, and255, and255]

/-- Claim C1: for every non-negative length below 2^32, decoding the
variable-length prefix produced by encoding it yields the same value with
the whole stream consumed; values at or above 0x10000000 are encoded as a
0xF0 byte followed by the four raw big-endian bytes of the value.  This
covers in particular the boundary pairs 0x7F/0x80, 0x3FFF/0x4000,
0x1FFFFF/0x200000 and 0xFFFFFFF/0x10000000. -/
theorem length_roundtrip (n : Nat) (h : n < 2 ^ 32) :
    decode_length (encode_length n) = some (n, []) ∧
    (0x10000000 ≤ n →
      encode_length n = [0xF0, n / 16777216, n / 65536 % 256, n / 256 % 256, n % 256]) := by
  have h32 : n < 4294967296 := by norm_num at h; exact h
  constructor
  · by_cases h1 : n < 0x80
    · rw [encode_one h1]
      simp [decode_length, h1]
    · by_cases h2 : n < 0x4000
      · rw [encode_two h1 h2, decode_two _ _ (by omega) (by omega)]
        rw [and127, shl8]
        simp only [Option.some.injEq, Prod.mk.injEq, and_true]
        omega
      · by_cases h3 : n < 0x200000
        · rw [encode_three h2 h3, decode_three _ _ _ (by omega) (by omega)]
          rw [and31, shl16, shl8]
          simp only [Option.some.injEq, Prod.mk.injEq, and_true]
          omega
        · by_cases h4 : n < 0x10000000
          · rw [encode_four h3 h4, decode_four _ _ _ _ (by omega) (by omega)]
            rw [and15, shl24, shl16, shl8]
            simp only [Option.some.injEq, Prod.mk.injEq, and_true]
            omega
          · rw [encode_five h4, decode_five _ _ _ _ _ (by omega)]
            rw [shl24, shl16, shl8]
            simp only [Option.some.injEq, Prod.mk.injEq, and_true]
            omega
  · intro h5
    rw [encode_five (by omega)]
    have hq : n / 16777216 % 256 = n / 16777216 := by omega
    rw [hq]

/- ===================== Sentence reader =====================
Protocol words are modelled as lists of characters (Python strings).
`readLoopF` embeds the response-reading loop of
`MikroTikAPI._send_command` (mikrotik_api.py lines 137-182):

  - an empty word ends the response (`if not word: break`);
  - a word starting with "!re" opens a data sentence whose attribute
    words are consumed by `readAttrs` (lines 152-165), with a one-slot
    lookahead: a control word that terminates the sentence is pushed
    back and processed as the next outer-loop word (`next_control`);
  - a word starting with "!done" ends the command;
  - a word starting with "!trap" or "!fatal" makes the command fail;
    `readTrap` (lines 170-176) scans its attribute words, keeping the
    value of each "=message=" attribute seen (attr[9:]), and the code
    raises `MikroTikAPIError("Command failed: " + error_msg)`;
  - any other word is ignored.

The loop is driven by a fuel argument; `readResponse` supplies
`length + 1` fuel, which can never run out because every iteration
consumes at least one word of the stream.  `Outcome.exhausted` stands
for the blocking socket read the Python code would perform on an empty
stream. -/

abbrev Word := List Char

abbrev Attrs := List (Word × Word)

def wRe : Word := "!re".data
def wDone : Word := "!done".data
def wTrap : Word := "!trap".data
def wFatal : Word := "!fatal".data
def wBang : Word := "!".data
def wEqSign : Word := "=".data
def wMsg : Word := "=message=".data

/- Python dict assignment `data[key] = value`: replace an existing
binding in place, otherwise append. -/
def dictInsert (d : Attrs) (k v : Word) : Attrs :=
  if d.any (fun p => p.1 == k) then
    d.map (fun p => if p.1 == k then (k, v) else p)
  else
    d ++ [(k, v)]

/- `attr[1:].partition("=")`: key is the text before the first "=" of
the tail, value the text after it (empty when no "=" occurs). -/
def attrKey (w : Word) : Word := (w.drop 1).takeWhile (fun c => c ≠ '=')

def attrVal (w : Word) : Word := ((w.drop 1).dropWhile (fun c => c ≠ '=')).drop 1

inductive Outcome where
  | done (replies : List Attrs)
  | trapped (msg : Word)
  | exhausted
deriving DecidableEq

def readAttrs : List Word → Attrs → Option (Attrs × Option Word × List Word)
  | [], _ => none
  | w :: ws, d =>
    if w = [] then some (d, none, ws)
    else if wEqSign.isPrefixOf w then readAttrs ws (dictInsert d (attrKey w) (attrVal w))
    else if wBang.isPrefixOf w then some (d, some w, ws)
    else readAttrs ws d

def readTrap : List Word → Word → Option Word
  | [], _ => none
  | w :: ws, m =>
    if w = [] || wBang.isPrefixOf w then some m
    else readTrap ws (if wMsg.isPrefixOf w then w.drop 9 else m)

def readLoopF : Nat → List Word → List Attrs → Outcome
  | 0, _, _ => .exhausted
  | _ + 1, [], _ => .exhausted
  | f + 1, w :: ws, acc =>
    if w = [] then .done acc
    else if wRe.isPrefixOf w then
      match readAttrs ws [] with
      | none => .exhausted
      | some (d, none, ws2) => readLoopF f ws2 (acc ++ [d])
      | some (d, some c, ws2) => readLoopF f (c :: ws2) (acc ++ [d])
    else if wDone.isPrefixOf w then .done acc
    else if wTrap.isPrefixOf w || wFatal.isPrefixOf w then
      match readTrap ws "Unknown error".data with
      | none => .exhausted
      | some m => .trapped ("Command failed: ".data ++ m)
    else readLoopF f ws acc

def readResponse (ws : List Word) : Outcome := readLoopF (ws.length + 1) ws []

/- Unfolding equations for the concrete control tokens. -/

theorem readLoopF_re (f : Nat) (ws : List Word) (acc : List Attrs) :
    readLoopF (f + 1) (wRe :: ws) acc =
      (match readAttrs ws [] with
       | none => Outcome.exhausted
       | some (d, none, ws2) => readLoopF f ws2 (acc ++ [d])
       | some (d, some c, ws2) => readLoopF f (c :: ws2) (acc ++ [d])) := rfl

theorem isPrefixOf_exists {p w : Word} (h : p.isPrefixOf w = true) :
    ∃ t, w = p ++ t := by
  obtain ⟨t, ht⟩ := List.isPrefixOf_iff_prefix.mp h
  exact ⟨t, ht.symm⟩

/- Any word starting with "!trap" or "!fatal" takes the error branch of
the loop: it is nonempty and its second character rules out the "!re"
and "!done" prefixes, so the first three tests all fail. -/
theorem readLoopF_trapfatal (f : Nat) (w : Word) (ws : List Word) (acc : List Attrs)
    (hw : wTrap.isPrefixOf w = true ∨ wFatal.isPrefixOf w = true) :
    readLoopF (f + 1) (w :: ws) acc =
      (match readTrap ws "Unknown error".data with
       | none => Outcome.exhausted
       | some m => Outcome.trapped ("Command failed: ".data ++ m)) := by
  rcases hw with hw | hw <;> obtain ⟨t, rfl⟩ := isPrefixOf_exists hw <;>
    simp only [readLoopF] <;>
    rw [show wTrap = ['!', 't', 'r', 'a', 'p'] from rfl,
      show wRe = ['!', 'r', 'e'] from rfl,
      show wDone = ['!', 'd', 'o', 'n', 'e'] from rfl,
      show wFatal = ['!', 'f', 'a', 't', 'a', 'l'] from rfl] <;>
    rw [if_neg (by simp), if_neg (by simp [List.isPrefixOf]),
      if_neg (by simp [List.isPrefixOf]), if_pos (by simp [List.isPrefixOf])]

theorem isPrefixOf_single {c : Char} {w : Word} :
    [c].isPrefixOf w = true ↔ ∃ t, w = c :: t := by
  constructor
  · intro h
    cases w with
    | nil => simp [List.isPrefixOf] at h
    | cons b t =>
      have hb : c == b := by simpa [List.isPrefixOf] using h
      exact ⟨t, by rw [eq_of_beq hb]⟩
  · rintro ⟨t, rfl⟩
    simp [List.isPrefixOf]

theorem bang_prefix_iff {w : Word} : wBang.isPrefixOf w = true ↔ ∃ t, w = '!' :: t := by
  rw [show wBang = ['!'] from rfl]
  exact isPrefixOf_single

theorem eqsign_prefix_iff {w : Word} : wEqSign.isPrefixOf w = true ↔ ∃ t, w = '=' :: t := by
  rw [show wEqSign = ['='] from rfl]
  exact isPrefixOf_single

/- Inner attribute loop of an `!re` sentence: a run of attribute words
followed immediately by a control word is folded into the data record,
and the control word is handed back in the lookahead slot. -/
theorem readAttrs_spec (as : List Word) (c : Word) (rest : List Word) (d : Attrs)
    (ha : ∀ a ∈ as, wEqSign.isPrefixOf a = true)
    (hc : wBang.isPrefixOf c = true) :
    readAttrs (as ++ c :: rest) d =
      some (as.foldl (fun d a => dictInsert d (attrKey a) (attrVal a)) d, some c, rest) := by
  induction as generalizing d with
  | nil =>
    obtain ⟨t, rfl⟩ := bang_prefix_iff.mp hc
    simp only [List.nil_append, List.foldl_nil, readAttrs]
    rw [if_neg (by simp), if_neg (by simp [wEqSign, List.isPrefixOf]),
      if_pos (by simp [wBang, List.isPrefixOf])]
  | cons a as ih =>
    obtain ⟨t, rfl⟩ := eqsign_prefix_iff.mp (ha a (List.mem_cons_self _ _))
    simp only [List.cons_append, readAttrs]
    rw [if_neg (by simp), if_pos (by simp [wEqSign, List.isPrefixOf]), List.foldl_cons]
    exact ih _ (fun x hx => ha x (List.mem_cons_of_mem _ hx))

/- Attribute loop of a `!trap`/`!fatal` sentence: the message reported
is the value of the LAST `=message=` attribute seen (each occurrence
overwrites the previous one), defaulting to the initial value.  The
sentence may end with an empty word or with the next control word (the
code breaks on either; a terminating control word is discarded here,
since the raised error aborts the command anyway). -/
theorem readTrap_spec (as : List Word) (term : Word) (rest : List Word) (m : Word)
    (ha : ∀ a ∈ as, a ≠ [] ∧ wBang.isPrefixOf a = false)
    (hterm : term = [] ∨ wBang.isPrefixOf term = true) :
    readTrap (as ++ term :: rest) m =
      some (as.foldl (fun m a => if wMsg.isPrefixOf a then a.drop 9 else m) m) := by
  induction as generalizing m with
  | nil =>
    rcases hterm with rfl | hb
    · simp [readTrap]
    · simp [readTrap, hb]
  | cons a as ih =>
    obtain ⟨hne, hnb⟩ := ha a (List.mem_cons_self _ _)
    simp only [List.cons_append, readTrap]
    rw [if_neg (by simp [hne, hnb]), List.foldl_cons]
    exact ih _ (fun x hx => ha x (List.mem_cons_of_mem _ hx))

/-- Claim C5: when an `!re` sentence is terminated not by an empty word
but by the immediate arrival of another control word, that control word
is buffered in the one-slot lookahead and processed as the start of the
next sentence on the following loop iteration (right-hand side:
the loop continues exactly as if the control word were at the head of
the stream), and the attributes accumulated so far are still appended
to the response as a complete reply record. -/
theorem re_sentence_control_pushback (f : Nat) (as : List Word) (c : Word)
    (rest : List Word) (acc : List Attrs)
    (ha : ∀ a ∈ as, wEqSign.isPrefixOf a = true)
    (hc : wBang.isPrefixOf c = true) :
    readLoopF (f + 1) (wRe :: (as ++ c :: rest)) acc =
      readLoopF f (c :: rest)
        (acc ++ [as.foldl (fun d a => dictInsert d (attrKey a) (attrVal a)) []]) := by
  rw [readLoopF_re, readAttrs_spec as c rest [] ha hc]

theorem re_sentence_control_pushback_witness :
    (∀ a ∈ ["=a=1".data], wEqSign.isPrefixOf a = true) ∧
    wBang.isPrefixOf "!done".data = true ∧
    readLoopF 2 (wRe :: (["=a=1".data] ++ "!done".data :: [])) [] =
      Outcome.done [[("a".data, "1".data)]] :=
  ⟨by decide, by decide,
    (re_sentence_control_pushback 1 ["=a=1".data] "!done".data [] []
      (by decide) (by decide)).trans (by decide)⟩

/-- Claim C6 counterexample: the claim says the error message is taken
from the FIRST `=message=` attribute of the trap sentence, but on the
stream `!trap, =message=A, =message=B, ""` the code reports `B` — each
`=message=` attribute overwrites the previous one, so the LAST wins. -/
theorem trap_message_first_counterexample :
    readResponse [wTrap, "=message=A".data, "=message=B".data, []] =
      Outcome.trapped ("Command failed: B".data) ∧
    Outcome.trapped ("Command failed: B".data) ≠
      Outcome.trapped ("Command failed: A".data) := by
  decide

/-- Claim C6 (amended): a sentence opened by any word carrying a
`!trap` or `!fatal` prefix fails the command with an error whose
message is taken from the LAST `=message=...` attribute seen in that
sentence, defaulting to "Unknown error" when no message attribute is
present; the sentence may be terminated by an empty word or by the
next control word, and the code wraps the extracted text as
"Command failed: <text>".  In particular the stream
`!trap, =message=Invalid group, ""` produces the message
"Invalid group" (see the witness, which also exercises a `!fatal`
sentence terminated by a control word). -/
theorem trap_message_last (f : Nat) (w : Word) (as : List Word) (term : Word)
    (rest : List Word) (acc : List Attrs)
    (hw : wTrap.isPrefixOf w = true ∨ wFatal.isPrefixOf w = true)
    (ha : ∀ a ∈ as, a ≠ [] ∧ wBang.isPrefixOf a = false)
    (hterm : term = [] ∨ wBang.isPrefixOf term = true) :
    readLoopF (f + 1) (w :: (as ++ term :: rest)) acc =
      Outcome.trapped ("Command failed: ".data ++
        as.foldl (fun m a => if wMsg.isPrefixOf a then a.drop 9 else m)
          "Unknown error".data) := by
  rw [readLoopF_trapfatal f w _ acc hw, readTrap_spec as term rest _ ha hterm]

theorem trap_message_last_witness :
    (∀ a ∈ ["=message=Invalid group".data], a ≠ [] ∧ wBang.isPrefixOf a = false) ∧
    readLoopF 1 (wTrap :: (["=message=Invalid group".data] ++ [] :: [])) [] =
      Outcome.trapped ("Command failed: Invalid group".data) ∧
    readLoopF 1 (wFatal :: (["=message=Invalid group".data] ++ "!done".data :: [])) [] =
      Outcome.trapped ("Command failed: Invalid group".data) :=
  ⟨by decide,
    (trap_message_last 0 wTrap ["=message=Invalid group".data] [] [] []
      (Or.inl (by decide)) (by decide) (Or.inl rfl)).trans (by decide),
    (trap_message_last 0 wFatal ["=message=Invalid group".data] "!done".data [] []
      (Or.inr (by decide)) (by decide) (Or.inr (by decide))).trans (by decide)⟩

/-- Claim C9 counterexample: the claim says only the EXACT tokens `!re`,
`!done`, `!trap`, `!fatal` determine sentence handling, and that a
control word merely sharing one of them as a prefix is skipped.  But the
code classifies by `startswith`: on the stream `!rex, "", !done` the
word `!rex` — which is none of the four exact tokens — starts a reply
sentence and yields a (here empty) reply record, instead of being
skipped (which would yield no record at all). -/
theorem control_prefix_counterexample :
    "!rex".data ≠ wRe ∧ "!rex".data ≠ wDone ∧ "!rex".data ≠ wTrap ∧
    "!rex".data ≠ wFatal ∧ wBang.isPrefixOf "!rex".data = true ∧
    readResponse ["!rex".data, [], wDone] = Outcome.done [[]] ∧
    Outcome.done [[]] ≠ Outcome.done [] := by
  decide

/-- Claim C9 (amended): sentence handling is decided by PREFIX matching
against "!re", "!done", "!trap", "!fatal"; a control word that starts
with "!" but with none of these four prefixes is skipped: it neither
starts a reply sentence, nor terminates the command, nor raises an
error — the loop simply continues with the rest of the stream and the
accumulated replies unchanged. -/
theorem unknown_control_skipped (f : Nat) (w : Word) (ws : List Word) (acc : List Attrs)
    (hb : wBang.isPrefixOf w = true)
    (h1 : wRe.isPrefixOf w = false) (h2 : wDone.isPrefixOf w = false)
    (h3 : wTrap.isPrefixOf w = false) (h4 : wFatal.isPrefixOf w = false) :
    readLoopF (f + 1) (w :: ws) acc = readLoopF f ws acc := by
  obtain ⟨t, rfl⟩ := bang_prefix_iff.mp hb
  simp [readLoopF, h1, h2, h3, h4]

theorem unknown_control_skipped_witness :
    wBang.isPrefixOf "!opt".data = true ∧
    wRe.isPrefixOf "!opt".data = false ∧ wDone.isPrefixOf "!opt".data = false ∧
    wTrap.isPrefixOf "!opt".data = false ∧ wFatal.isPrefixOf "!opt".data = false ∧
    readLoopF 2 ["!opt".data, []] [] = Outcome.done [] :=
  ⟨by decide, by decide, by decide, by decide, by decide,
    (unknown_control_skipped 1 "!opt".data [[]] []
      (by decide) (by decide) (by decide) (by decide) (by decide)).trans (by decide)⟩

theorem length_roundtrip_witness :
    (0x10000000 : Nat) < 2 ^ 32 ∧
    decode_length (encode_length 0x7F) = some (0x7F, []) ∧
    decode_length (encode_length 0x80) = some (0x80, []) ∧
    decode_length (encode_length 0x3FFF) = some (0x3FFF, []) ∧
    decode_length (encode_length 0x4000) = some (0x4000, []) ∧
    decode_length (encode_length 0x1FFFFF) = some (0x1FFFFF, []) ∧
    decode_length (encode_length 0x200000) = some (0x200000, []) ∧
    decode_length (encode_length 0xFFFFFFF) = some (0xFFFFFFF, []) ∧
    decode_length (encode_length 0x10000000) = some (0x10000000, []) ∧
    encode_length 0x10000000 = [0xF0, 0x10, 0x00, 0x00, 0x00] :=
  ⟨by decide,
    (length_roundtrip 0x7F (by decide)).1,
    (length_roundtrip 0x80 (by decide)).1,
    (length_roundtrip 0x3FFF (by decide)).1,
    (length_roundtrip 0x4000 (by decide)).1,
    (length_roundtrip 0x1FFFFF (by decide)).1,
    (length_roundtrip 0x200000 (by decide)).1,
    (length_roundtrip 0xFFFFFFF (by decide)).1,
    (length_roundtrip 0x10000000 (by decide)).1,
    ((length_roundtrip 0x10000000 (by decide)).2 (by decide)).trans (by decide)⟩

/- ===================== Decimal rendering =====================
`decimalStr` embeds the Python rendering `str(n)` of a non-negative integer, as
used in `f"{prefix}{timestamp}-{rand_suffix}"` and `f"{hh:02d}"`.  The
digits are produced little-endian by repeated division (fuel-driven so
the definition is structural) and then reversed. -/

def natDigitsAux : Nat → Nat → List Nat
  | 0, _ => []
  | f + 1, n => if n = 0 then [] else n % 10 :: natDigitsAux f (n / 10)

def decimalStr (n : Nat) : String :=
  if n = 0 then "0"
  else String.mk ((natDigitsAux (n + 1) n).reverse.map (fun d => Char.ofNat (48 + d)))

/- `f"{x:02d}"` for a non-negative integer: zero-padded to a minimum
width of two digits. -/
def pad2 (n : Nat) : String := if n < 10 then "0" ++ decimalStr n else decimalStr n

theorem natDigitsAux_len_le :
    ∀ (f n k : Nat), n < 10 ^ k → (natDigitsAux f n).length ≤ k := by
  intro f
  induction f with
  | zero => intro n k _; simp [natDigitsAux]
  | succ f ih =>
    intro n k hk
    by_cases hn : n = 0
    · simp [natDigitsAux, hn]
    · cases k with
      | zero => omega
      | succ k =>
        simp only [natDigitsAux, if_neg hn, List.length_cons]
        have hd : n / 10 < 10 ^ k := by
          have : 10 ^ (k + 1) = 10 ^ k * 10 := by ring
          omega
        have := ih (n / 10) k hd
        omega

theorem natDigitsAux_len_ge :
    ∀ (f n k : Nat), n < f → 10 ^ k ≤ n → k + 1 ≤ (natDigitsAux f n).length := by
  intro f
  induction f with
  | zero => intro n k h _; omega
  | succ f ih =>
    intro n k hf hk
    have hn : n ≠ 0 := by
      have : 0 < 10 ^ k := Nat.pos_pow_of_pos k (by norm_num)
      omega
    simp only [natDigitsAux, if_neg hn, List.length_cons]
    cases k with
    | zero => omega
    | succ k =>
      have hd : 10 ^ k ≤ n / 10 := by
        have h10 : 10 ^ (k + 1) = 10 ^ k * 10 := by ring
        rw [Nat.le_div_iff_mul_le (by norm_num)]
        omega
      have hlt : n / 10 < f := by
        have : n / 10 < n := Nat.div_lt_self (by omega) (by norm_num)
        omega
      have := ih (n / 10) k hlt hd
      omega

theorem natDigitsAux_digits_lt :
    ∀ (f n : Nat), ∀ d ∈ natDigitsAux f n, d < 10 := by
  intro f
  induction f with
  | zero => intro n d hd; simp [natDigitsAux] at hd
  | succ f ih =>
    intro n d hd
    by_cases hn : n = 0
    · simp [natDigitsAux, hn] at hd
    · simp only [natDigitsAux, if_neg hn, List.mem_cons] at hd
      rcases hd with hd | hd
      · omega
      · exact ih _ _ hd

theorem decimalStr_len_ten {n : Nat} (h1 : 10 ^ 9 ≤ n) (h2 : n < 10 ^ 10) :
    (decimalStr n).length = 10 := by
  have hn : n ≠ 0 := by
    have : 0 < 10 ^ 9 := by norm_num
    omega
  have hle := natDigitsAux_len_le (n + 1) n 10 h2
  have hge := natDigitsAux_len_ge (n + 1) n 9 (by omega) h1
  simp only [decimalStr, if_neg hn, String.length]
  simp only [List.length_map, List.length_reverse]
  omega

theorem digitChar_mem (d : Nat) (h : d < 10) :
    Char.ofNat (48 + d) ∈ "0123456789".data := by
  interval_cases d <;> decide

theorem decimalStr_digits {n : Nat} (c : Char) (hc : c ∈ (decimalStr n).data) :
    c ∈ "0123456789".data := by
  by_cases hn : n = 0
  · simp [decimalStr, hn] at hc
    rw [hc]
    decide
  · simp only [decimalStr, if_neg hn] at hc
    simp only [List.mem_map, List.mem_reverse] at hc
    obtain ⟨d, hd, rfl⟩ := hc
    exact digitChar_mem d (natDigitsAux_digits_lt _ _ d hd)

/- ===================== Credential generation =====================
Embeds `MikroTikManager.generate_temp_credentials` (mikrotik_manager.py
lines 182-192).  `now` stands for `int(datetime.now().timestamp())` and
the oracles `r`, `rp` supply the indices that `secrets.choice` would
draw from its alphabet (each index is reduced modulo the alphabet
size); the cryptographic quality of `secrets` is outside the embedding.
The username is `prefix + str(now) + "-" + suffix` with a 4-character
suffix over lowercase letters and digits; the password is 12 characters
over letters, digits and "!@#$%^&*". -/

def lowerAlnum : List Char := "abcdefghijklmnopqrstuvwxyz0123456789".data

def passAlphabet : List Char :=
  "abcdefghijklmnopqrstuvwxyzABCDEFGHIJKLMNOPQRSTUVWXYZ0123456789!@#$%^&*".data

def chooseFrom (l : List Char) (k : Nat) : Char := l.getD (k % l.length) 'a'

def sfxStr (r : Nat → Nat) : String :=
  String.mk ((List.range 4).map (fun i => chooseFrom lowerAlnum (r i)))

def genUsername (pfx : String) (now : Nat) (r : Nat → Nat) : String :=
  pfx ++ decimalStr now ++ "-" ++ sfxStr r

def genPassword (rp : Nat → Nat) : String :=
  String.mk ((List.range 12).map (fun i => chooseFrom passAlphabet (rp i)))

def generate_temp_credentials (pfx : String) (now : Nat) (r rp : Nat → Nat) :
    String × String :=
  (genUsername pfx now r, genPassword rp)

theorem chooseFrom_mem (l : List Char) (k : Nat) (h : l ≠ []) : chooseFrom l k ∈ l := by
  have hl : 0 < l.length := List.length_pos.mpr h
  have hk : k % l.length < l.length := Nat.mod_lt _ hl
  rw [chooseFrom, List.getD_eq_getElem?_getD, List.getElem?_eq_getElem hk]
  exact List.getElem_mem hk

/-- Claim C7: every generated temporary username has the form
`<prefix><10-digit decimal unix timestamp>-<4-character random
lowercase-alphanumeric suffix>` (the timestamp has ten digits for any
clock value in [10^9, 10^10), which covers the years 2001-2286), and
every generated password is exactly 12 characters drawn from letters,
digits and "!@#$%^&*".  The secure random source is modelled as an
index oracle. -/
theorem generated_credentials_shape (pfx : String) (now : Nat) (r rp : Nat → Nat)
    (h1 : 10 ^ 9 ≤ now) (h2 : now < 10 ^ 10) :
    (generate_temp_credentials pfx now r rp).1 =
      pfx ++ decimalStr now ++ "-" ++ sfxStr r ∧
    (decimalStr now).length = 10 ∧
    (∀ c ∈ (decimalStr now).data, c ∈ "0123456789".data) ∧
    (sfxStr r).length = 4 ∧
    (∀ c ∈ (sfxStr r).data, c ∈ lowerAlnum) ∧
    (generate_temp_credentials pfx now r rp).2.length = 12 ∧
    (∀ c ∈ (generate_temp_credentials pfx now r rp).2.data, c ∈ passAlphabet) := by
  refine ⟨rfl, decimalStr_len_ten h1 h2, fun c hc => decimalStr_digits c hc, ?_, ?_, ?_, ?_⟩
  · simp [sfxStr, String.length]
  · intro c hc
    simp only [sfxStr, List.mem_map] at hc
    obtain ⟨i, _, rfl⟩ := hc
    exact chooseFrom_mem lowerAlnum (r i) (by decide)
  · simp [generate_temp_credentials, genPassword, String.length]
  · intro c hc
    simp only [generate_temp_credentials, genPassword, List.mem_map] at hc
    obtain ⟨i, _, rfl⟩ := hc
    exact chooseFrom_mem passAlphabet (rp i) (by decide)

theorem generated_credentials_shape_witness :
    ((10 : Nat) ^ 9 ≤ 1700000000 ∧ (1700000000 : Nat) < 10 ^ 10) ∧
    (decimalStr 1700000000).length = 10 ∧
    genUsername "temp-" 1700000000 (fun _ => 0) = "temp-1700000000-aaaa" ∧
    genPassword (fun _ => 0) = "aaaaaaaaaaaa" :=
  ⟨by decide,
    (generated_credentials_shape "temp-" 1700000000 (fun _ => 0) (fun _ => 0)
      (by decide) (by decide)).2.1,
    by decide, by decide⟩

/- ===================== Manager layer =====================
Device replies at the manager level are Python dicts of strings,
modelled as association lists; `rget` is `dict.get` and `truthyOpt`
is Python truthiness of `None`-or-string (None and "" are falsy). -/

abbrev SRecord := List (String × String)

def rget (rec : SRecord) (k : String) : Option String :=
  (rec.find? (fun p => p.1 == k)).map (fun p => p.2)

def truthyOpt : Option String → Bool
  | none => false
  | some s => !(s == "")

/- Python `a or b` on two `get` results. -/
def pyOr (a b : Option String) : Option String := if truthyOpt a then a else b

/- ===================== Identity resolver =====================
Embeds the two-step identity lookup of `MikroTikManager.test_connection`
(mikrotik_manager.py lines 74-79; the same shape recurs at lines
111-118 and 271-275): first `/system/identity/print` restricted with
`.proplist=name`; if the result is empty or its first record offers no
usable (non-empty) `name` or legacy `identity` value, the unrestricted
form of the same command is issued once more.  `cmd` maps the argument
record of a `/system/identity/print` call to the reply of the device; the
resolver returns the argument records of the calls it issued, in order,
together with the resolved identity. -/

def restrictedArgs : SRecord := [(".proplist", "name")]

def usableResp (resp : List SRecord) : Bool :=
  match resp with
  | [] => false
  | rec :: _ => truthyOpt (rget rec "name") || truthyOpt (rget rec "identity")

def extractIdent (resp : List SRecord) : Option String :=
  match resp with
  | [] => none
  | rec :: _ => pyOr (rget rec "name") (rget rec "identity")

def resolve_identity (cmd : SRecord → List SRecord) : List SRecord × Option String :=
  let r1 := cmd restrictedArgs
  if usableResp r1 then ([restrictedArgs], extractIdent r1)
  else ([restrictedArgs, []], extractIdent (cmd []))

/-- Claim C8: each identity resolution issues the restricted query
(`.proplist=name`) first; the unrestricted form of the same command is
issued at most once more, and exactly when the restricted result is
empty or its first record offers a usable value in neither the `name`
field nor the legacy `identity` field; the returned identity is the
`name` (or `identity`) value of the first record of the last response
consulted, and none when that response is empty. -/
theorem identity_resolution_fallback (cmd : SRecord → List SRecord) :
    (resolve_identity cmd).1.head? = some restrictedArgs ∧
    (resolve_identity cmd).1.count ([] : SRecord) ≤ 1 ∧
    (usableResp (cmd restrictedArgs) = true →
      (resolve_identity cmd).1 = [restrictedArgs] ∧
      (resolve_identity cmd).2 = extractIdent (cmd restrictedArgs)) ∧
    (usableResp (cmd restrictedArgs) = false →
      (resolve_identity cmd).1 = [restrictedArgs, []] ∧
      (resolve_identity cmd).2 = extractIdent (cmd []) ∧
      (cmd [] = [] → (resolve_identity cmd).2 = none)) := by
  by_cases h : usableResp (cmd restrictedArgs) = true
  · have e : resolve_identity cmd = ([restrictedArgs], extractIdent (cmd restrictedArgs)) := by
      simp [resolve_identity, h]
    rw [e]
    refine ⟨rfl, ?_, fun _ => ⟨rfl, rfl⟩, fun hf => ?_⟩
    · show List.count ([] : SRecord) [restrictedArgs] ≤ 1
      decide
    · rw [h] at hf
      cases hf
  · have hf : usableResp (cmd restrictedArgs) = false := by simpa using h
    have e : resolve_identity cmd = ([restrictedArgs, []], extractIdent (cmd [])) := by
      simp [resolve_identity, hf]
    rw [e]
    refine ⟨rfl, ?_, fun ht => ?_, fun _ => ⟨rfl, rfl, fun he => ?_⟩⟩
    · show List.count ([] : SRecord) [restrictedArgs, []] ≤ 1
      decide
    · rw [hf] at ht
      cases ht
    · show extractIdent (cmd []) = none
      rw [he]
      rfl

/- A device on which the restricted query returns nothing but the
unrestricted one reveals the identity. -/
def identCmdW : SRecord → List SRecord :=
  fun args => if args = restrictedArgs then [] else [[("name", "MyRouter")]]

theorem identity_resolution_fallback_witness :
    usableResp (identCmdW restrictedArgs) = false ∧
    (resolve_identity identCmdW).1 = [restrictedArgs, []] ∧
    (resolve_identity identCmdW).2 = some "MyRouter" :=
  ⟨by decide,
    (((identity_resolution_fallback identCmdW).2.2.2) (by decide)).1,
    ((((identity_resolution_fallback identCmdW).2.2.2) (by decide)).2.1).trans (by decide)⟩

/- ===================== Credential lifecycle manager =====================
`Env` abstracts everything `MikroTikManager.create_temporary_user` and
`revoke_temporary_user` (mikrotik_manager.py lines 204-324) observe
from the outside world:

  - `testConnOk`/`testConnError`/`testConnIdentity`: outcome of the
    initial `self.test_connection(ip_address)` probe (its success flag,
    its error string, and its `identity` field);
  - `connectOk`: outcome of `api.connect()` on the service session;
  - `cmd name args`: result of `api._send_command(name, args)` on the
    service session — `.ok` a reply list, `.error` the message of the
    raised `MikroTikAPIError`;
  - `tempConnectOk`/`tempCmd`: the same for the secondary session the
    create path opens with the freshly created temporary credentials.

Each modelled operation returns its result together with the trace of
`(command, arguments)` pairs issued on the service session, in order. -/

structure Env where
  testConnOk : Bool
  testConnError : String
  testConnIdentity : Option String
  connectOk : Bool
  cmd : String → SRecord → Except String (List SRecord)
  tempConnectOk : Bool
  tempCmd : String → SRecord → Except String (List SRecord)

abbrev Trace := List (String × SRecord)

/- `/user/add` argument dict (mikrotik_manager.py lines 223-228). -/
def userAddArgs (u p g : String) (d : Nat) : SRecord :=
  [("name", u), ("password", p), ("group", g),
   ("comment", "Temporary user - expires in " ++ decimalStr d ++ " minutes")]

/- The templated on-event cleanup script (lines 241-247). -/
def cleanupScript (u s : String) : String :=
  ":log info \"Cleaning up temporary user: " ++ u ++ "\"; " ++
  "/user remove [find name=\"" ++ u ++ "\"]; " ++
  ":log info \"Temporary user " ++ u ++ " removed\"; " ++
  "/system scheduler remove [find name=\"" ++ s ++ "\"]; " ++
  ":log info \"Cleanup scheduler " ++ s ++ " removed\""

/- The HH:MM:SS interval string (lines 237-239). -/
def intervalStr (d : Nat) : String :=
  pad2 (d / 60) ++ ":" ++ pad2 (d % 60) ++ ":00"

/- `/system/scheduler/add` argument dict (lines 249-254). -/
def schedAddArgs (u s iv : String) : SRecord :=
  [("name", s), ("interval", iv), ("on-event", cleanupScript u s),
   ("comment", "Auto cleanup for " ++ u)]

/- Python `if not group` defaulting the group to "read" (lines 214-215). -/
def effGroup : Option String → String
  | none => "read"
  | some g => if g == "" then "read" else g

/- Identity enrichment over the temporary-credential session (lines
266-280): the same two-step resolver, with any raised exception
collapsing to no identity. -/
def tempResolve (connectOk : Bool)
    (cmd : String → SRecord → Except String (List SRecord)) : Option String :=
  if connectOk then
    match cmd "/system/identity/print" restrictedArgs with
    | .error _ => none
    | .ok r1 =>
      if usableResp r1 then extractIdent r1
      else
        match cmd "/system/identity/print" [] with
        | .error _ => none
        | .ok r2 => extractIdent r2
  else none

inductive CreateResult where
  | ok (username password : String) (duration : Nat) (identity : Option String)
  | err (msg : String)
deriving DecidableEq

/- Embeds `MikroTikManager.create_temporary_user` (lines 204-293).
The pure credential generation is parameterised by the clock value and
randomness oracles exactly as `generate_temp_credentials` above. -/
def create_temporary_user (env : Env) (duration : Nat) (pfx : String) (now : Nat)
    (r rp : Nat → Nat) (group : Option String) : CreateResult × Trace :=
  if env.testConnOk = false then
    (.err ("Cannot connect to device: " ++ env.testConnError), [])
  else
    let u := genUsername pfx now r
    let p := genPassword rp
    let g := effGroup group
    if env.connectOk = false then (.err "API login failed", [])
    else
      let a1 := userAddArgs u p g duration
      match env.cmd "/user/add" a1 with
      | .error e => (.err ("Failed to create user: " ++ e), [("/user/add", a1)])
      | .ok _ =>
        let snm := "cleanup-" ++ u
        let a2 := schedAddArgs u snm (intervalStr duration)
        match env.cmd "/system/scheduler/add" a2 with
        | .error e =>
          -- best-effort rollback of the user; its own outcome is discarded
          let _rb := env.cmd "/user/remove" [("numbers", u)]
          (.err ("Failed to create cleanup scheduler: " ++ e),
           [("/user/add", a1), ("/system/scheduler/add", a2),
            ("/user/remove", [("numbers", u)])])
        | .ok _ =>
          let ident :=
            if truthyOpt env.testConnIdentity then env.testConnIdentity
            else tempResolve env.tempConnectOk env.tempCmd
          (.ok u p duration ident,
           [("/user/add", a1), ("/system/scheduler/add", a2)])

inductive RevokeResult where
  | ok (msg : String)
  | err (msg : String)
deriving DecidableEq

/- Embeds `MikroTikManager.revoke_temporary_user` (lines 295-324): after
a successful probe and login, `/user/remove` is attempted (exceptions
only logged), then `/system/scheduler/remove` for `cleanup-<username>`
(exceptions swallowed), and success is returned unconditionally. -/
def revoke_temporary_user (env : Env) (username : String) : RevokeResult × Trace :=
  if env.testConnOk = false then
    (.err ("Cannot connect to device: " ++ env.testConnError), [])
  else if env.connectOk = false then (.err "API login failed", [])
  else
    let _r1 := env.cmd "/user/remove" [("numbers", username)]
    let _r2 := env.cmd "/system/scheduler/remove" [("numbers", "cleanup-" ++ username)]
    (.ok ("User " ++ username ++ " revoked successfully"),
     [("/user/remove", [("numbers", username)]),
      ("/system/scheduler/remove", [("numbers", "cleanup-" ++ username)])])

/-- Claim C2: whenever the `/user/add` step of the create operation succeeds and
the subsequent `/system/scheduler/add` fails, a compensating
`/user/remove` for the same generated username is issued before the
operation returns (it is the last trace entry), and the returned
failure carries the original scheduler error.  The environment leaves
the outcome of the rollback itself (`env.cmd "/user/remove" ...`) completely
unconstrained, so the conclusion holds in particular when the rollback
itself fails: a rollback failure never replaces the original error. -/
theorem create_rollback_on_scheduler_failure
    (env : Env) (duration : Nat) (pfx : String) (now : Nat) (r rp : Nat → Nat)
    (group : Option String) (rs : List SRecord) (e : String)
    (hconn : env.testConnOk = true) (hlogin : env.connectOk = true)
    (hadd : env.cmd "/user/add"
      (userAddArgs (genUsername pfx now r) (genPassword rp) (effGroup group) duration) =
        .ok rs)
    (hsched : env.cmd "/system/scheduler/add"
      (schedAddArgs (genUsername pfx now r) ("cleanup-" ++ genUsername pfx now r)
        (intervalStr duration)) = .error e) :
    (create_temporary_user env duration pfx now r rp group).2 =
      [("/user/add",
         userAddArgs (genUsername pfx now r) (genPassword rp) (effGroup group) duration),
       ("/system/scheduler/add",
         schedAddArgs (genUsername pfx now r) ("cleanup-" ++ genUsername pfx now r)
           (intervalStr duration)),
       ("/user/remove", [("numbers", genUsername pfx now r)])] ∧
    (create_temporary_user env duration pfx now r rp group).1 =
      .err ("Failed to create cleanup scheduler: " ++ e) := by
  simp [create_temporary_user, hconn, hlogin, hadd, hsched]

/- Environment for the rollback witness: probing and login succeed,
`/user/add` succeeds, and everything else — including the compensating
`/user/remove` — fails. -/
def envRollback : Env where
  testConnOk := true
  testConnError := ""
  testConnIdentity := none
  connectOk := true
  cmd := fun n _ => if n = "/user/add" then .ok [] else .error "boom"
  tempConnectOk := false
  tempCmd := fun _ _ => .error "boom"

set_option maxRecDepth 100000 in
theorem create_rollback_on_scheduler_failure_witness :
    (create_temporary_user envRollback 90 "temp-" 1700000000
        (fun _ => 0) (fun _ => 0) none).1 =
      CreateResult.err "Failed to create cleanup scheduler: boom" ∧
    ("/user/remove", [("numbers", "temp-1700000000-aaaa")]) ∈
      (create_temporary_user envRollback 90 "temp-" 1700000000
        (fun _ => 0) (fun _ => 0) none).2 := by
  have h := create_rollback_on_scheduler_failure envRollback 90 "temp-" 1700000000
    (fun _ => 0) (fun _ => 0) none [] "boom" rfl rfl rfl rfl
  refine ⟨h.2.trans (by decide), ?_⟩
  rw [h.1]
  decide

/-- Claim C3: in every execution of the create operation, any
`/system/scheduler/add` command issued carries an `interval` argument
equal to `HH:MM:SS` where `HH = duration div 60` and
`MM = duration mod 60`, each rendered by `pad2` (zero-padded to a
minimum of two digits, the Python 02d format), and the seconds field is
literally "00". -/
theorem create_scheduler_interval_format
    (env : Env) (duration : Nat) (pfx : String) (now : Nat) (r rp : Nat → Nat)
    (group : Option String) (args : SRecord)
    (hmem : ("/system/scheduler/add", args) ∈
      (create_temporary_user env duration pfx now r rp group).2) :
    List.lookup "interval" args =
      some (pad2 (duration / 60) ++ ":" ++ pad2 (duration % 60) ++ ":00") := by
  simp only [create_temporary_user] at hmem
  split at hmem
  · simp at hmem
  · split at hmem
    · simp at hmem
    · split at hmem
      · simp +decide [Prod.ext_iff] at hmem
      · split at hmem
        · simp +decide [Prod.ext_iff] at hmem
          rw [hmem]
          simp +decide [schedAddArgs, List.lookup, intervalStr]
        · simp +decide [Prod.ext_iff] at hmem
          rw [hmem]
          simp +decide [schedAddArgs, List.lookup, intervalStr]

set_option maxRecDepth 100000 in
theorem create_scheduler_interval_format_witness :
    ("/system/scheduler/add",
        schedAddArgs "temp-1700000000-aaaa" "cleanup-temp-1700000000-aaaa" "01:30:00") ∈
      (create_temporary_user envRollback 90 "temp-" 1700000000
        (fun _ => 0) (fun _ => 0) none).2 ∧
    List.lookup "interval"
        (schedAddArgs "temp-1700000000-aaaa" "cleanup-temp-1700000000-aaaa" "01:30:00") =
      some "01:30:00" :=
  ⟨by decide,
    (create_scheduler_interval_format envRollback 90 "temp-" 1700000000
      (fun _ => 0) (fun _ => 0) none _ (by decide)).trans (by decide)⟩

/-- Claim C4: whenever the probe and login of the revoke operation succeed,
it returns success and its trace is exactly `/user/remove` for the
username followed by `/system/scheduler/remove` for
`cleanup-<username>`.  The environment leaves both command outcomes
unconstrained, so success and the scheduler-removal attempt hold in
particular when `/user/remove` reported a failure (nonexistent or
already-removed user), and the scheduler removal is issued after the
failed user removal. -/
theorem revoke_tolerant_success (env : Env) (u : String)
    (hconn : env.testConnOk = true) (hlogin : env.connectOk = true) :
    revoke_temporary_user env u =
      (.ok ("User " ++ u ++ " revoked successfully"),
       [("/user/remove", [("numbers", u)]),
        ("/system/scheduler/remove", [("numbers", "cleanup-" ++ u)])]) := by
  simp [revoke_temporary_user, hconn, hlogin]

/- Environment for the revoke witness: every device command fails
("no such item"), as for a nonexistent user. -/
def envNoUser : Env where
  testConnOk := true
  testConnError := ""
  testConnIdentity := none
  connectOk := true
  cmd := fun _ _ => .error "no such item"
  tempConnectOk := false
  tempCmd := fun _ _ => .error "no such item"

theorem revoke_tolerant_success_witness :
    envNoUser.cmd "/user/remove" [("numbers", "temp-1-x")] = .error "no such item" ∧
    revoke_temporary_user envNoUser "temp-1-x" =
      (.ok "User temp-1-x revoked successfully",
       [("/user/remove", [("numbers", "temp-1-x")]),
        ("/system/scheduler/remove", [("numbers", "cleanup-temp-1-x")])]) :=
  ⟨rfl, (revoke_tolerant_success envNoUser "temp-1-x" rfl rfl).trans (by decide)⟩

/- ===================== Device info =====================
Embeds the user-counting core of `MikroTikManager.get_device_info`
(mikrotik_manager.py lines 92-180).  `users` is the `/user/print`
reply, `dbCount` the active-request count the local database reports
for this address, `marker` the TEMP_USER_COMMENT_MARKER.  The identity
enrichment of the same function (lines 110-120) is the resolver
modelled above and does not affect the counts.  The function returns
none when the probe or the API login fails (the code returns an error
record there), and otherwise the reported (total_users,
temporary_users) pair. -/

def isDisabled (u : SRecord) : Bool :=
  match rget u "disabled" with
  | some s => s == "true" || s == "yes"
  | none => false

def commentHasMarker (u : SRecord) (marker : String) : Bool :=
  decide ((marker.toLower.data) <:+: (((rget u "comment").getD "").toLower.data))

def get_device_info_counts (users : List SRecord) (dbCount : Nat) (marker : String) :
    Nat × Nat :=
  let total := (users.filter (fun u => !(isDisabled u))).length
  let temp := (users.filter (fun u => commentHasMarker u marker)).length
  -- DB backfill when the router reports suspiciously low counts
  let temp2 :=
    if total ≤ 1 ∨ temp = 0 then
      (if temp = 0 ∧ dbCount ≠ 0 then dbCount else temp)
    else temp
  -- final sanity step
  let total2 :=
    if total = 0 ∧ temp2 > 0 then temp2 + 1
    else if total < temp2 then temp2 + 1
    else total
  (total2, temp2)

def get_device_info (env : Env) (users : List SRecord) (dbCount : Nat)
    (marker : String) : Option (Nat × Nat) :=
  if env.testConnOk = false then none
  else if env.connectOk = false then none
  else some (get_device_info_counts users dbCount marker)

/-- Claim C10: whenever get_device_info returns a success record, the
reported total_users is at least the reported temporary_users: the
final sanity step raises total_users to temporary_users + 1 whenever
the raw device count is zero while temporary users are present, or is
smaller than the (possibly database-backfilled) temporary-user
count. -/
theorem sanity_le (total temp2 : Nat) :
    temp2 ≤ (if total = 0 ∧ temp2 > 0 then temp2 + 1
             else if total < temp2 then temp2 + 1 else total) := by
  split
  · omega
  · split <;> omega

theorem device_info_user_count_invariant (env : Env) (users : List SRecord)
    (dbCount : Nat) (marker : String) (t tu : Nat)
    (h : get_device_info env users dbCount marker = some (t, tu)) : tu ≤ t := by
  simp only [get_device_info] at h
  split at h
  · cases h
  · split at h
    · cases h
    · simp only [get_device_info_counts, Option.some.injEq, Prod.mk.injEq] at h
      obtain ⟨ht, htu⟩ := h
      subst ht
      subst htu
      exact sanity_le _ _

theorem device_info_user_count_invariant_witness :
    get_device_info envNoUser [] 5 "Temporary user" = some (6, 5) ∧ 5 ≤ 6 :=
  ⟨by decide,
    device_info_user_count_invariant envNoUser [] 5 "Temporary user" 6 5 (by decide)⟩
